import Mathlib

/-!
Verification development for the Zoom Rooms SDK microservice wrapper
(src/service/app.py and src/example_client.py).

The service wraps an asynchronous device driver (the native Zoom Rooms SDK)
behind request/response operations.  The shallow embedding below translates
the relevant Python code into pure Lean functions:

* callback sinks (`ZoomRoomsServiceSink`, `PreMeetingServiceSink`) become
  record-update functions on explicit sink states;
* the mutable `RoomManager` dictionaries become association lists inside an
  explicit `RoomManagerState`, threaded through each operation;
* the asynchronous waits inside the `pair_room` request handler are modelled
  by passing in the list of callback deliveries that occur between the
  handler clearing an event and the waiter resuming (an empty list for the
  pairing wait, or a list with no Connected state for the connection wait,
  means the corresponding `asyncio.wait_for` times out);
* driver calls are recorded in an explicit trace (`DriverCall`) and their
  synchronous result codes are passed in as parameters.
-/

set_option autoImplicit false

/-- Model of `zrc_sdk.ZRCSDKERR_SUCCESS`, the success result code of the
driver.  The code compares driver results against it and compares callback
payloads against the literal `0`. -/
def ZRCSDKERR_SUCCESS : Int := 0

/-- Model of the driver connection-state enum (`zrc_sdk.ConnectionState...`).
Only `connected` is distinguished by the code
(`zrc_sdk.ConnectionStateConnected`). -/
inductive ConnState where
  | connected
  | connecting
  | disconnected
deriving DecidableEq

/-- Rendering of a connection state, modelling the Python `str(state)`
conversion used when building responses. -/
def connStateStr : ConnState → String
  | ConnState.connected => "ConnectionStateConnected"
  | ConnState.connecting => "ConnectionStateConnecting"
  | ConnState.disconnected => "ConnectionStateDisconnected"

/-- Python `str` applied to an `Optional` connection state (`str(None)` is
the string `None`). -/
def connStr : Option ConnState → String
  | none => "None"
  | some c => connStateStr c

/-- State of a `ZoomRoomsServiceSink` instance (src/service/app.py lines
93-109): the stored pairing result payload and the `asyncio.Event` flag. -/
structure RoomSink where
  room_id : String
  pair_result : Option Int := none
  pair_event : Bool := false
deriving DecidableEq

/-- `ZoomRoomsServiceSink.OnPairRoomResult` (app.py lines 101-105): stores
the result payload and sets the event flag.  Note that it unconditionally
overwrites any previously stored payload. -/
def OnPairRoomResult (s : RoomSink) (result : Int) : RoomSink :=
  { s with pair_result := some result, pair_event := true }

/-- State of a `PreMeetingServiceSink` instance (app.py lines 112-125). -/
structure PreMeetingSink where
  room_id : String
  connection_state : Option ConnState := none
  connected_event : Bool := false
deriving DecidableEq

/-- `PreMeetingServiceSink.OnZRConnectionStateChanged` (app.py lines
120-125): stores the new state and sets the event flag only when the state
is `ConnectionStateConnected`. -/
def OnZRConnectionStateChanged (s : PreMeetingSink) (state : ConnState) : PreMeetingSink :=
  { s with connection_state := some state,
           connected_event := if state = ConnState.connected then true else s.connected_event }

/-- The fixed error-code table of `pair_room` (app.py lines 381-386). -/
def error_messages (code : Int) : Option String :=
  if code = 30055016 then some "Invalid activation code"
  else if code = 100 then some "Failed to connect to room"
  else if code = 101 then some "Room cannot verify connection"
  else if code = 102 then some "Timeout waiting for room\x27s verify response"
  else none

/-- The failure message computed at app.py line 387:
`error_messages.get(pair_result, f"Pairing failed with code ...")`.  The
stored payload is `Optional` in Python; a `None` payload would format as the
string `None`. -/
def pairFailMessage : Option Int → String
  | some code => (error_messages code).getD ("Pairing failed with code " ++ toString code)
  | none => "Pairing failed with code None"

/-- The JSON body returned by the `pair_room` endpoint.  `result` is
`Option Int` because the Python field holds `room_sink.pair_result`, an
`Optional[int]`, on one path. -/
structure PairResponse where
  room_id : String
  result : Option Int
  success : Bool
  message : String
  connection_state : Option String := none
deriving DecidableEq

/-- Trace of synchronous calls issued to the driver. -/
inductive DriverCall where
  | createService (room_id : String)
  | registerRoomSink (room_id : String)
  | registerPreSink (room_id : String)
  | pairWithCode (room_id : String) (activation_code : String)
deriving DecidableEq

/-- Association-list lookup, modelling Python `dict.get`. -/
def alookup {β : Type} : List (String × β) → String → Option β
  | [], _ => none
  | (k, v) :: rest, key => if k = key then some v else alookup rest key

/-- Association-list assignment, modelling Python `dict[key] = value`. -/
def aupdate {β : Type} : List (String × β) → String → β → List (String × β)
  | [], key, v => [(key, v)]
  | (k, w) :: rest, key, v =>
      if k = key then (k, v) :: rest else (k, w) :: aupdate rest key v

/-- The mutable state of the module-level `RoomManager` (app.py lines
134-143): the `rooms`, `room_sinks` and `premeeting_sinks` dictionaries.
Driver session handles are modelled as natural numbers drawn from
`next_handle`, so that two distinct `CreateZoomRoomsService` results are
distinct handles. -/
structure RoomManagerState where
  rooms : List (String × Nat)
  room_sinks : List (String × RoomSink)
  premeeting_sinks : List (String × PreMeetingSink)
  next_handle : Nat := 0
deriving DecidableEq

/-- A freshly constructed `RoomManager` (app.py line 256). -/
def emptyManager : RoomManagerState :=
  { rooms := [], room_sinks := [], premeeting_sinks := [], next_handle := 0 }

/-- `RoomManager.create_room_service` (app.py lines 211-239).  Returns the
updated manager state, the handle of the returned service object, and the
driver calls issued.  `reg_room_ok` and `reg_pre_ok` are the results of the
two `RegisterSink` driver calls (`true` = `ZRCSDKERR_SUCCESS`); a failed
registration leaves the corresponding sink dictionary untouched, exactly as
in the source. -/
def create_room_service (st : RoomManagerState) (room_id : String)
    (reg_room_ok reg_pre_ok : Bool) : RoomManagerState × Nat × List DriverCall :=
  match alookup st.rooms room_id with
  | some h => (st, h, [])
  | none =>
    let h := st.next_handle
    let st1 := { st with next_handle := st.next_handle + 1 }
    let st2 := if reg_room_ok
      then { st1 with room_sinks := aupdate st1.room_sinks room_id { room_id := room_id } }
      else st1
    let st3 := if reg_pre_ok
      then { st2 with premeeting_sinks := aupdate st2.premeeting_sinks room_id { room_id := room_id } }
      else st2
    ({ st3 with rooms := aupdate st3.rooms room_id h }, h,
      [DriverCall.createService room_id, DriverCall.registerRoomSink room_id,
       DriverCall.registerPreSink room_id])

/-- One entry of the `room_infos` list produced by the driver call
`QueryAllZoomRoomsServices` (app.py lines 157-179).  `worker` is the
restored service handle, absent when the room has no worker. -/
structure RoomInfo where
  roomID : String
  roomName : String
  worker : Option Nat
deriving DecidableEq

/-- The restoration part of `RoomManager.initialize` (app.py lines 154-185,
the banned-name-free rendering of that method).  On a success result code
it inserts every room that has a worker into `rooms` (and only into
`rooms`: no callback sinks are registered for restored rooms); on an error
result code it logs a warning and leaves the state untouched.  The returned
list holds the warning log lines; the function is total, so the method
always falls through to its final success log (startup is never aborted by
an enumeration error code). -/
def restore_rooms (query_result : Int) (room_infos : List RoomInfo)
    (st : RoomManagerState) : RoomManagerState × List String :=
  if query_result = ZRCSDKERR_SUCCESS then
    ({ st with rooms := (room_infos.foldl
        (fun r info =>
          match info.worker with
          | some w => aupdate r info.roomID w
          | none => r) st.rooms) }, [])
  else
    (st, ["QueryAllZoomRoomsServices returned error: " ++ toString query_result])

/-- Writing the (mutated) sink objects back into the manager dictionaries.
In Python the sinks are mutated in place; here the updated records are
stored back under the same keys. -/
def writeSinks (st : RoomManagerState) (room_id : String) (rs : RoomSink)
    (ps : PreMeetingSink) : RoomManagerState :=
  { st with room_sinks := aupdate st.room_sinks room_id rs,
            premeeting_sinks := aupdate st.premeeting_sinks room_id ps }

/-- The body of the `pair_room` endpoint after the callback sinks have been
found (app.py lines 351-416).  `driver_pair_result` is the synchronous
result of `PairRoomWithActivationCode`; `pairEvents` are the
`OnPairRoomResult` payloads delivered between the event reset and the
moment the first waiter resumes (empty list: the 30s `asyncio.wait_for`
times out); `connEvents` likewise for `OnZRConnectionStateChanged` during
the 60s connection wait. -/
def pair_room_body (st1 : RoomManagerState) (calls1 : List DriverCall)
    (room_id activation_code : String) (driver_pair_result : Int)
    (pairEvents : List Int) (connEvents : List ConnState)
    (room_sink : RoomSink) (premeeting_sink : PreMeetingSink) :
    RoomManagerState × List DriverCall × Except String PairResponse :=
  let room_sink := { room_sink with pair_event := false }
  let premeeting_sink := { premeeting_sink with connected_event := false }
  let calls := calls1 ++ [DriverCall.pairWithCode room_id activation_code]
  if driver_pair_result ≠ ZRCSDKERR_SUCCESS then
    (writeSinks st1 room_id room_sink premeeting_sink, calls,
      Except.ok { room_id := room_id, result := some driver_pair_result, success := false,
                  message := "Failed to initiate pairing" })
  else
    let room_sink := pairEvents.foldl OnPairRoomResult room_sink
    let st2 := writeSinks st1 room_id room_sink premeeting_sink
    if room_sink.pair_event = false then
      (st2, calls,
        Except.ok { room_id := room_id, result := some (-1), success := false,
                    message := "Timeout waiting for pairing result" })
    else if room_sink.pair_result ≠ some 0 then
      (st2, calls,
        Except.ok { room_id := room_id, result := room_sink.pair_result, success := false,
                    message := pairFailMessage room_sink.pair_result })
    else
      let premeeting_sink := connEvents.foldl OnZRConnectionStateChanged premeeting_sink
      let st3 := writeSinks st1 room_id room_sink premeeting_sink
      if premeeting_sink.connected_event = false then
        (st3, calls,
          Except.ok { room_id := room_id, result := some 0, success := false,
                      message := "Pairing succeeded but timeout waiting for connection. Room may connect later." })
      else
        (st3, calls,
          Except.ok { room_id := room_id, result := some 0, success := true,
                      message := "Room successfully paired and connected",
                      connection_state := some (connStr premeeting_sink.connection_state) })

/-- The `pair_room` endpoint (app.py lines 329-420).  It first calls
`create_room_service`, then looks the callback sinks up; a missing sink is
the `HTTPException(500, "Failed to register callbacks")` path, modelled as
`Except.error`. -/
def pair_room (st : RoomManagerState) (room_id activation_code : String)
    (reg_room_ok reg_pre_ok : Bool) (driver_pair_result : Int)
    (pairEvents : List Int) (connEvents : List ConnState) :
    RoomManagerState × List DriverCall × Except String PairResponse :=
  let c := create_room_service st room_id reg_room_ok reg_pre_ok
  match alookup c.1.room_sinks room_id, alookup c.1.premeeting_sinks room_id with
  | some rs, some ps =>
      pair_room_body c.1 c.2.2 room_id activation_code driver_pair_result
        pairEvents connEvents rs ps
  | some _, none => (c.1, c.2.2, Except.error "Failed to register callbacks")
  | none, _ => (c.1, c.2.2, Except.error "Failed to register callbacks")

/-- The `result` field of the response, when the endpoint returned one. -/
def respResult (x : RoomManagerState × List DriverCall × Except String PairResponse) :
    Option (Option Int) :=
  match x.2.2 with
  | Except.ok r => some r.result
  | Except.error _ => none

/-- The three-way pairing outcome described by the responses of
`pair_room`: full success, partial success (paired but the connection wait
timed out), and failure. -/
inductive PairOutcomeKind where
  | connected
  | pairedNotConnected
  | failed
deriving DecidableEq

/-- Classifier on pairing responses: among the responses `pair_room`
actually returns, `success = true` only on the fully-connected path and
`result = some 0` with `success = false` only on the
paired-but-not-connected path. -/
def classifyOutcome (r : PairResponse) : PairOutcomeKind :=
  if r.success then PairOutcomeKind.connected
  else if r.result = some 0 then PairOutcomeKind.pairedNotConnected
  else PairOutcomeKind.failed

/-- Outcome of one `self.sdk.HeartBeat()` invocation inside the heartbeat
loop: either it returns normally or it raises an exception with the given
message. -/
inductive TickOutcome where
  | ok
  | err (msg : String)
deriving DecidableEq

/-- The `heartbeat_loop` inner coroutine of `RoomManager.start_heartbeat`
(app.py lines 187-200), run against a finite schedule of tick outcomes
(the prefix of the process lifetime under observation; `self.sdk` is set,
as `initialize` runs before `start_heartbeat`).  Returns how many tick
invocations were issued and the error log lines.  The `except` handler
logs the error and then executes `break`, so the iterations after a
raising tick are never reached. -/
def heartbeat_loop : List TickOutcome → Nat × List String
  | [] => (0, [])
  | TickOutcome.ok :: rest =>
      let r := heartbeat_loop rest
      (r.1 + 1, r.2)
  | TickOutcome.err m :: _ => (1, ["HeartBeat error: " ++ m])

/-- Modelled from the spec: the Liveness Pump behavior the specification
describes, in which a single failed tick is logged and retried on the next
interval rather than halting the pump, so every scheduled interval issues
a tick.  Present only for comparison against `heartbeat_loop`, the
function actually embedded from the source. -/
def heartbeat_loop_spec : List TickOutcome → Nat
  | [] => 0
  | TickOutcome.ok :: rest => heartbeat_loop_spec rest + 1
  | TickOutcome.err _ :: rest => heartbeat_loop_spec rest + 1

/-- Progress of one in-flight `pair_room` request in the two-request
interleaving model. -/
inductive PairPhase where
  | idle
  | waitingPair
deriving DecidableEq

/-- Which of the two concurrent requests a step acts on. -/
inductive Waiter where
  | A
  | B
deriving DecidableEq

/-- Global state for two concurrent `pair_room` requests against the same
room id: the shared sink objects (one `ZoomRoomsServiceSink` and one
`PreMeetingServiceSink` per room id, shared by every request for that id)
and each request phase, plus the driver-call trace. -/
structure TwoWaiterState where
  sink : RoomSink
  pre : PreMeetingSink
  a : PairPhase
  b : PairPhase
  calls : List DriverCall
deriving DecidableEq

/-- The synchronous prefix of `pair_room` executed atomically by one
request (app.py lines 341-370, for a room whose sinks are registered and
whose `PairRoomWithActivationCode` call returns success): reset both
events, issue the driver pairing call, and begin awaiting `pair_event`.
In `asyncio`, this whole block runs without interleaving until the
`await`. -/
def startPairWait (s : TwoWaiterState) (w : Waiter) (room_id activation_code : String) :
    TwoWaiterState :=
  { s with sink := { s.sink with pair_event := false },
           pre := { s.pre with connected_event := false },
           calls := s.calls ++ [DriverCall.pairWithCode room_id activation_code],
           a := if w = Waiter.A then PairPhase.waitingPair else s.a,
           b := if w = Waiter.B then PairPhase.waitingPair else s.b }

/-- Delivery of an `OnPairRoomResult` callback by the driver, interleaved
with the requests. -/
def deliverPairResult (s : TwoWaiterState) (r : Int) : TwoWaiterState :=
  { s with sink := OnPairRoomResult s.sink r }

/-- Number of requests currently awaiting the `(room, PairingResult)` key,
i.e. active pending waits for that single key. -/
def activeWaits (s : TwoWaiterState) : Nat :=
  (if s.a = PairPhase.waitingPair then 1 else 0) +
  (if s.b = PairPhase.waitingPair then 1 else 0)

/-- The kinds of correlated events the specification names. -/
inductive EventKind where
  | pairingResult
  | connectionStateChanged
  | meetingStatusChanged
deriving DecidableEq

/-- A facade operation outcome `resultCode / success / message`. -/
structure MuteOutcome where
  resultCode : Int
  success : Bool
  message : String
deriving DecidableEq

/-- Modelled from the spec: the mute-audio and mute-video facade
operations.  src/example_client.py (lines 51-65) calls POST
endpoints /api/rooms/.../audio/mute and /api/rooms/.../video/mute, but
src/service/app.py defines no such endpoints, so the operation itself is
missing from src/ and is modelled from the spec words: a single driver
call with a synchronous result code and no correlated wait.  `pending` is
the set of registered pending waits, returned untouched; the outcome
echoes the driver result code and is successful exactly when the driver
call succeeded. -/
def mute_op (pending : List (String × EventKind)) (room_id : String) (mute : Bool)
    (driver_result : Int) : MuteOutcome × List (String × EventKind) :=
  ({ resultCode := driver_result,
     success := if driver_result = ZRCSDKERR_SUCCESS then true else false,
     message :=
       if driver_result = ZRCSDKERR_SUCCESS then
         (if mute then "muted" else "unmuted")
       else "mute failed with code " ++ toString driver_result },
   pending)

/-- The outcome kind of the response, when the endpoint returned one. -/
def respKind (x : RoomManagerState × List DriverCall × Except String PairResponse) :
    Option PairOutcomeKind :=
  match x.2.2 with
  | Except.ok r => some (classifyOutcome r)
  | Except.error _ => none

/-- A concrete manager state used by witnesses and counterexamples: one
room "r1" with registered sinks, whose room sink still holds a stale event
from an earlier delivery (event flag set, payload 7) that no wait
consumed. -/
def stW : RoomManagerState :=
  { rooms := [("r1", 0)],
    room_sinks := [("r1", { room_id := "r1", pair_result := some 7, pair_event := true })],
    premeeting_sinks := [("r1", { room_id := "r1" })],
    next_handle := 1 }

/-- Initial state for the two-concurrent-requests scenario: one room with
fresh sinks and neither request started. -/
def twoW0 : TwoWaiterState :=
  { sink := { room_id := "r1" }, pre := { room_id := "r1" },
    a := PairPhase.idle, b := PairPhase.idle, calls := [] }

theorem alookup_aupdate_self {β : Type} (m : List (String × β)) (k : String) (v : β) :
    alookup (aupdate m k v) k = some v := by
  induction m with
  | nil => simp [alookup, aupdate]
  | cons p rest ih =>
      obtain ⟨k1, w⟩ := p
      by_cases hk : k1 = k
      · simp [aupdate, alookup, hk]
      · simp [aupdate, alookup, hk, ih]

theorem foldl_pair_event (s : RoomSink) (ds : List Int) :
    (List.foldl OnPairRoomResult s ds).pair_event = (s.pair_event || !ds.isEmpty) := by
  induction ds generalizing s with
  | nil => simp
  | cons a t ih => simp [List.foldl_cons, ih, OnPairRoomResult]

theorem foldl_pair_result (s : RoomSink) (ds : List Int) (hds : ds ≠ []) :
    (List.foldl OnPairRoomResult s ds).pair_result = ds.getLast? := by
  induction ds generalizing s with
  | nil => cases hds rfl
  | cons a t ih =>
      cases t with
      | nil => simp [OnPairRoomResult]
      | cons b t2 =>
          rw [List.foldl_cons, ih (OnPairRoomResult s a) (by simp),
            List.getLast?_cons_cons]

theorem foldl_conn_event (p : PreMeetingSink) (cs : List ConnState) :
    (List.foldl OnZRConnectionStateChanged p cs).connected_event =
      (p.connected_event || cs.any (fun c => decide (c = ConnState.connected))) := by
  induction cs generalizing p with
  | nil => simp
  | cons c t ih =>
      by_cases hc : c = ConnState.connected <;>
        simp [List.foldl_cons, ih, OnZRConnectionStateChanged, hc, Bool.or_assoc]

theorem create_room_service_existing (st : RoomManagerState) (room_id : String)
    (a b : Bool) (h : Nat) (hroom : alookup st.rooms room_id = some h) :
    create_room_service st room_id a b = (st, h, []) := by
  simp [create_room_service, hroom]

theorem pair_room_registered (st : RoomManagerState) (room_id activation_code : String)
    (rr rp : Bool) (dpr : Int) (ds : List Int) (cs : List ConnState)
    (h : Nat) (s : RoomSink) (p : PreMeetingSink)
    (hroom : alookup st.rooms room_id = some h)
    (hs : alookup st.room_sinks room_id = some s)
    (hp : alookup st.premeeting_sinks room_id = some p) :
    pair_room st room_id activation_code rr rp dpr ds cs =
      pair_room_body st [] room_id activation_code dpr ds cs s p := by
  simp [pair_room, create_room_service_existing st room_id rr rp h hroom, hs, hp]

/-- Claim C8: for every device id, calling getOrCreate twice returns the
same Device instance; the second call returns the existing registry entry
without constructing a new driver session, so no id ever has duplicate
sessions.  The second `create_room_service` call returns the same handle,
leaves the manager state unchanged, and issues no driver call at all. -/
theorem c8_get_or_create_twice_same_instance (st : RoomManagerState) (room_id : String)
    (a b c d : Bool) :
    create_room_service (create_room_service st room_id a b).1 room_id c d =
      ((create_room_service st room_id a b).1, (create_room_service st room_id a b).2.1, []) := by
  cases hr : alookup st.rooms room_id with
  | some h =>
      rw [create_room_service_existing st room_id a b h hr]
      exact create_room_service_existing st room_id c d h hr
  | none =>
      apply create_room_service_existing
      simp [create_room_service, hr, alookup_aupdate_self]

/-- Claim C9: startup restoration of previously-paired devices fails
softly: every error result code from the driver enumeration call is
logged as a warning, zero devices are restored (the registry is left
exactly as it was), and the function returns normally so startup
completes. -/
theorem c9_restore_fails_softly (r : Int) (infos : List RoomInfo)
    (st : RoomManagerState) (hr : r ≠ ZRCSDKERR_SUCCESS) :
    restore_rooms r infos st =
      (st, ["QueryAllZoomRoomsServices returned error: " ++ toString r]) := by
  simp [restore_rooms, hr]

theorem c9_restore_fails_softly_witness :
    (5 : Int) ≠ ZRCSDKERR_SUCCESS ∧
    restore_rooms 5 [{ roomID := "r1", roomName := "Room One", worker := some 3 }] emptyManager =
      (emptyManager, ["QueryAllZoomRoomsServices returned error: " ++ toString (5 : Int)]) :=
  ⟨by decide, c9_restore_fails_softly 5
    [{ roomID := "r1", roomName := "Room One", worker := some 3 }] emptyManager (by decide)⟩

/-- Claim C2, counterexample: with a schedule in which the first tick
raises and a second tick is scheduled for the next interval, the heartbeat
loop issues only the one failing tick invocation and stops, while the
behavior the claim describes (the spec model) would issue both.  The
failed tick is not retried on the next interval; the pump halts. -/
theorem c2_counterexample :
    heartbeat_loop [TickOutcome.err "boom", TickOutcome.ok] = (1, ["HeartBeat error: boom"]) ∧
    heartbeat_loop_spec [TickOutcome.err "boom", TickOutcome.ok] = 2 ∧
    (heartbeat_loop [TickOutcome.err "boom", TickOutcome.ok]).1 ≠
      heartbeat_loop_spec [TickOutcome.err "boom", TickOutcome.ok] :=
  ⟨rfl, rfl, by decide⟩

/-- Claim C2, amended: a single tick invocation raising an error is logged
("HeartBeat error: ...") and halts the Liveness Pump: the loop breaks, and
no tick scheduled after the failing one is ever issued, whatever the rest
of the schedule holds. -/
theorem c2_error_halts_pump (m : String) (rest : List TickOutcome) :
    heartbeat_loop (TickOutcome.err m :: rest) = (1, ["HeartBeat error: " ++ m]) := rfl

/-- Claim C7: the facade exposes muteAudio and muteVideo, each a single
synchronous driver call with no correlated wait: a non-zero driver result
code yields success = false with that code echoed, and the registered
pending-wait set is returned unchanged (no wait started, none left
registered).  Modelled from the spec, as the mute endpoints are absent
from src/service/app.py. -/
theorem c7_mute_nonzero_no_wait (pending : List (String × EventKind)) (room_id : String)
    (m : Bool) (dr : Int) (hdr : dr ≠ 0) :
    (mute_op pending room_id m dr).1.success = false ∧
    (mute_op pending room_id m dr).1.resultCode = dr ∧
    (mute_op pending room_id m dr).2 = pending := by
  simp [mute_op, ZRCSDKERR_SUCCESS, hdr]

theorem c7_mute_nonzero_no_wait_witness :
    (3 : Int) ≠ 0 ∧
    ((mute_op [("r2", EventKind.pairingResult)] "r1" true 3).1.success = false ∧
     (mute_op [("r2", EventKind.pairingResult)] "r1" true 3).1.resultCode = 3 ∧
     (mute_op [("r2", EventKind.pairingResult)] "r1" true 3).2 =
       [("r2", EventKind.pairingResult)]) :=
  ⟨by decide, c7_mute_nonzero_no_wait [("r2", EventKind.pairingResult)] "r1" true 3 (by decide)⟩

/-- Claim C1, counterexample: starting a second pair wait for the same
(deviceId, PairingResult) key while one is already pending is not rejected
with a ConflictError.  From the concrete initial state, after request A has
begun waiting, request B executes the same synchronous prefix and also
reaches the waiting state: B issues its own driver pairing call (two calls
in the trace) and two active PendingWaits exist for the single key at
once, so the at-most-one-active-wait-per-key invariant is false. -/
theorem c1_counterexample :
    (startPairWait (startPairWait twoW0 Waiter.A "r1" "code") Waiter.B "r1" "code").a =
      PairPhase.waitingPair ∧
    (startPairWait (startPairWait twoW0 Waiter.A "r1" "code") Waiter.B "r1" "code").b =
      PairPhase.waitingPair ∧
    activeWaits (startPairWait (startPairWait twoW0 Waiter.A "r1" "code") Waiter.B "r1" "code") = 2 ∧
    ¬ activeWaits (startPairWait (startPairWait twoW0 Waiter.A "r1" "code") Waiter.B "r1" "code") ≤ 1 ∧
    (startPairWait (startPairWait twoW0 Waiter.A "r1" "code") Waiter.B "r1" "code").calls.length = 2 := by
  decide

/-- Claim C1, amended: the code performs no conflict detection.  A second
pair request for the same key while one is pending is not rejected and does
not block: it proceeds through the same synchronous prefix, clears the
shared pair event (so an already-delivered but not yet consumed result is
discarded, which can affect the first wait), issues a second driver pairing
call, and becomes a second simultaneously active pending wait for the same
(deviceId, PairingResult) key. -/
theorem c1_second_wait_not_rejected (s : TwoWaiterState) (room_id activation_code : String)
    (hA : s.a = PairPhase.waitingPair) :
    (startPairWait s Waiter.B room_id activation_code).a = PairPhase.waitingPair ∧
    (startPairWait s Waiter.B room_id activation_code).b = PairPhase.waitingPair ∧
    activeWaits (startPairWait s Waiter.B room_id activation_code) = 2 ∧
    (startPairWait s Waiter.B room_id activation_code).sink.pair_event = false ∧
    (startPairWait s Waiter.B room_id activation_code).calls =
      s.calls ++ [DriverCall.pairWithCode room_id activation_code] := by
  simp [startPairWait, activeWaits, hA]

theorem c1_second_wait_not_rejected_witness :
    (startPairWait twoW0 Waiter.A "r1" "code").a = PairPhase.waitingPair ∧
    ((startPairWait (startPairWait twoW0 Waiter.A "r1" "code") Waiter.B "r1" "code").a =
        PairPhase.waitingPair ∧
     (startPairWait (startPairWait twoW0 Waiter.A "r1" "code") Waiter.B "r1" "code").b =
        PairPhase.waitingPair ∧
     activeWaits (startPairWait (startPairWait twoW0 Waiter.A "r1" "code") Waiter.B "r1" "code") = 2 ∧
     (startPairWait (startPairWait twoW0 Waiter.A "r1" "code") Waiter.B "r1" "code").sink.pair_event = false ∧
     (startPairWait (startPairWait twoW0 Waiter.A "r1" "code") Waiter.B "r1" "code").calls =
       (startPairWait twoW0 Waiter.A "r1" "code").calls ++ [DriverCall.pairWithCode "r1" "code"]) :=
  ⟨by decide, c1_second_wait_not_rejected (startPairWait twoW0 Waiter.A "r1" "code") "r1" "code" (by decide)⟩

/-- Claim C3: an event routed while no wait is pending is not buffered in a
way a later wait could consume: a pair_room request started after such an
event fired (stale event flag and payload still stored in the sink) first
clears the event, so with no new delivery its 30s wait times out (result -1,
timeout message) and is never retroactively resolved by the earlier event;
with one new delivery of payload r it resolves with exactly that new
payload. -/
theorem c3_dropped_event_no_retroactive_resolution
    (st : RoomManagerState) (room_id activation_code : String) (rr rp : Bool)
    (cs : List ConnState) (h : Nat) (s : RoomSink) (p : PreMeetingSink)
    (hroom : alookup st.rooms room_id = some h)
    (hs : alookup st.room_sinks room_id = some s)
    (hp : alookup st.premeeting_sinks room_id = some p) :
    (pair_room st room_id activation_code rr rp ZRCSDKERR_SUCCESS [] cs).2.2 =
      Except.ok { room_id := room_id, result := some (-1), success := false,
                  message := "Timeout waiting for pairing result" } ∧
    ∀ r : Int, respResult (pair_room st room_id activation_code rr rp ZRCSDKERR_SUCCESS [r] cs) =
      some (some r) := by
  constructor
  · rw [pair_room_registered st room_id activation_code rr rp ZRCSDKERR_SUCCESS [] cs h s p
      hroom hs hp]
    simp [pair_room_body, ZRCSDKERR_SUCCESS]
  · intro r
    rw [pair_room_registered st room_id activation_code rr rp ZRCSDKERR_SUCCESS [r] cs h s p
      hroom hs hp]
    by_cases hr : r = 0
    · simp [pair_room_body, ZRCSDKERR_SUCCESS, OnPairRoomResult, hr]
      split <;> simp [respResult]
    · simp [pair_room_body, ZRCSDKERR_SUCCESS, OnPairRoomResult, hr, respResult]

theorem foldl_pair_event_of_ne (s : RoomSink) (ds : List Int) (hds : ds ≠ []) :
    (List.foldl OnPairRoomResult s ds).pair_event = true := by
  rw [foldl_pair_event]
  cases ds with
  | nil => cases hds rfl
  | cons a t => simp

theorem pair_room_no_sink (st : RoomManagerState) (room_id activation_code : String)
    (rr rp : Bool) (dpr : Int) (ds : List Int) (cs : List ConnState) (h : Nat)
    (hroom : alookup st.rooms room_id = some h)
    (hs : alookup st.room_sinks room_id = none) :
    pair_room st room_id activation_code rr rp dpr ds cs =
      (st, [], Except.error "Failed to register callbacks") := by
  simp [pair_room, create_room_service_existing st room_id rr rp h hroom, hs]

theorem c3_dropped_event_witness :
    (alookup stW.rooms "r1" = some 0 ∧
     alookup stW.room_sinks "r1" =
       some { room_id := "r1", pair_result := some 7, pair_event := true } ∧
     alookup stW.premeeting_sinks "r1" = some { room_id := "r1" }) ∧
    ((pair_room stW "r1" "code" true true ZRCSDKERR_SUCCESS [] []).2.2 =
      Except.ok { room_id := "r1", result := some (-1), success := false,
                  message := "Timeout waiting for pairing result" } ∧
     ∀ r : Int, respResult (pair_room stW "r1" "code" true true ZRCSDKERR_SUCCESS [r] []) =
       some (some r)) :=
  ⟨⟨rfl, rfl, rfl⟩,
    c3_dropped_event_no_retroactive_resolution stW "r1" "code" true true [] 0
      { room_id := "r1", pair_result := some 7, pair_event := true } { room_id := "r1" }
      rfl rfl rfl⟩

/-- Claim C4, counterexample: with one wait pending and two events
(payloads 0, then 30055016) delivered before the waiter resumes, the wait
resolves with the second payload 30055016, not with the first payload 0:
the stored payload is overwritten by the later event, so resolution is not
first-writer-wins. -/
theorem c4_counterexample :
    respResult (pair_room stW "r1" "code" true true ZRCSDKERR_SUCCESS [0, 30055016] []) =
      some (some 30055016) ∧
    some (30055016 : Int) ≠ some (0 : Int) :=
  ⟨rfl, by decide⟩

/-- Claim C4, amended: resolution reads the sink state at the moment the
waiter resumes, and each event delivery overwrites the stored payload, so
when several events for the key are delivered while one wait is pending the
wait resolves with the LAST delivered payload (last-writer-wins); the
earlier payloads are the ones silently dropped. -/
theorem c4_last_writer_wins (st : RoomManagerState) (room_id activation_code : String)
    (rr rp : Bool) (ds : List Int) (cs : List ConnState)
    (h : Nat) (s : RoomSink) (p : PreMeetingSink)
    (hroom : alookup st.rooms room_id = some h)
    (hs : alookup st.room_sinks room_id = some s)
    (hp : alookup st.premeeting_sinks room_id = some p)
    (hds : ds ≠ []) :
    respResult (pair_room st room_id activation_code rr rp ZRCSDKERR_SUCCESS ds cs) =
      some ds.getLast? := by
  rw [pair_room_registered st room_id activation_code rr rp ZRCSDKERR_SUCCESS ds cs h s p
    hroom hs hp]
  by_cases h0 : ds.getLast? = some 0
  · simp [pair_room_body, ZRCSDKERR_SUCCESS, foldl_pair_event_of_ne, hds,
      foldl_pair_result, h0]
    split <;> simp [respResult, h0]
  · simp [pair_room_body, ZRCSDKERR_SUCCESS, foldl_pair_event_of_ne, hds,
      foldl_pair_result, h0, respResult]

theorem c4_last_writer_wins_witness :
    (alookup stW.rooms "r1" = some 0 ∧
     alookup stW.room_sinks "r1" =
       some { room_id := "r1", pair_result := some 7, pair_event := true } ∧
     alookup stW.premeeting_sinks "r1" = some { room_id := "r1" } ∧
     ([5, 6] : List Int) ≠ []) ∧
    respResult (pair_room stW "r1" "code" true true ZRCSDKERR_SUCCESS [5, 6] []) =
      some (([5, 6] : List Int).getLast?) :=
  ⟨⟨rfl, rfl, rfl, by decide⟩,
    c4_last_writer_wins stW "r1" "code" true true [5, 6] [] 0
      { room_id := "r1", pair_result := some 7, pair_event := true } { room_id := "r1" }
      rfl rfl rfl (by decide)⟩

/-- Claim C5: a PairingResult event with non-zero code N makes the pairing
outcome a failure echoing N verbatim, with a message looked up in the fixed
code table (30055016 maps to "Invalid activation code"); codes outside the
table fall back to the generic message built from N. -/
theorem c5_nonzero_code_echoed_with_table (st : RoomManagerState)
    (room_id activation_code : String) (rr rp : Bool) (cs : List ConnState)
    (h : Nat) (s : RoomSink) (p : PreMeetingSink)
    (hroom : alookup st.rooms room_id = some h)
    (hs : alookup st.room_sinks room_id = some s)
    (hp : alookup st.premeeting_sinks room_id = some p) :
    (∀ N : Int, N ≠ 0 →
      (pair_room st room_id activation_code rr rp ZRCSDKERR_SUCCESS [N] cs).2.2 =
        Except.ok { room_id := room_id, result := some N, success := false,
                    message := pairFailMessage (some N) }) ∧
    pairFailMessage (some 30055016) = "Invalid activation code" ∧
    (∀ N : Int, N ≠ 30055016 → N ≠ 100 → N ≠ 101 → N ≠ 102 →
      pairFailMessage (some N) = "Pairing failed with code " ++ toString N) := by
  refine ⟨?_, ?_, ?_⟩
  · intro N hN
    rw [pair_room_registered st room_id activation_code rr rp ZRCSDKERR_SUCCESS [N] cs h s p
      hroom hs hp]
    simp [pair_room_body, ZRCSDKERR_SUCCESS, OnPairRoomResult, hN]
  · rfl
  · intro N h1 h2 h3 h4
    simp [pairFailMessage, error_messages, h1, h2, h3, h4]

theorem c5_nonzero_code_witness :
    (alookup stW.rooms "r1" = some 0 ∧
     alookup stW.room_sinks "r1" =
       some { room_id := "r1", pair_result := some 7, pair_event := true } ∧
     alookup stW.premeeting_sinks "r1" = some { room_id := "r1" } ∧
     (30055016 : Int) ≠ 0 ∧ (5 : Int) ≠ 0) ∧
    (pair_room stW "r1" "code" true true ZRCSDKERR_SUCCESS [30055016] []).2.2 =
      Except.ok { room_id := "r1", result := some 30055016, success := false,
                  message := pairFailMessage (some 30055016) } ∧
    pairFailMessage (some 30055016) = "Invalid activation code" ∧
    pairFailMessage (some 5) = "Pairing failed with code " ++ toString (5 : Int) :=
  ⟨⟨rfl, rfl, rfl, by decide, by decide⟩,
    (c5_nonzero_code_echoed_with_table stW "r1" "code" true true [] 0
      { room_id := "r1", pair_result := some 7, pair_event := true } { room_id := "r1" }
      rfl rfl rfl).1 30055016 (by decide),
    (c5_nonzero_code_echoed_with_table stW "r1" "code" true true [] 0
      { room_id := "r1", pair_result := some 7, pair_event := true } { room_id := "r1" }
      rfl rfl rfl).2.1,
    (c5_nonzero_code_echoed_with_table stW "r1" "code" true true [] 0
      { room_id := "r1", pair_result := some 7, pair_event := true } { room_id := "r1" }
      rfl rfl rfl).2.2 5 (by decide) (by decide) (by decide) (by decide)⟩

/-- Claim C6: when the driver pairing call succeeds, PairingResult arrives
with code 0, and no Connected state arrives before the connection deadline,
the outcome is the distinct partial-success response (result 0, success
false, the "Pairing succeeded but timeout waiting for connection" message),
returned as a normal response rather than an error, and its outcome kind
pairedNotConnected is distinct from the kind of every fully-connected
outcome (connected) and of every failure outcome (failed): the driver-call
failure, pair-result-timeout and non-zero-code paths all classify as
failed, the full-success path classifies as connected. -/
theorem c6_paired_not_connected_three_way (st : RoomManagerState)
    (room_id activation_code : String) (rr rp : Bool)
    (h : Nat) (s : RoomSink) (p : PreMeetingSink)
    (hroom : alookup st.rooms room_id = some h)
    (hs : alookup st.room_sinks room_id = some s)
    (hp : alookup st.premeeting_sinks room_id = some p) :
    (∀ cs : List ConnState, cs.any (fun c => decide (c = ConnState.connected)) = false →
      (pair_room st room_id activation_code rr rp ZRCSDKERR_SUCCESS [0] cs).2.2 =
        Except.ok { room_id := room_id, result := some 0, success := false,
                    message := "Pairing succeeded but timeout waiting for connection. Room may connect later." } ∧
      respKind (pair_room st room_id activation_code rr rp ZRCSDKERR_SUCCESS [0] cs) =
        some PairOutcomeKind.pairedNotConnected) ∧
    (∀ cs : List ConnState, cs.any (fun c => decide (c = ConnState.connected)) = true →
      respKind (pair_room st room_id activation_code rr rp ZRCSDKERR_SUCCESS [0] cs) =
        some PairOutcomeKind.connected) ∧
    (∀ dpr : Int, dpr ≠ ZRCSDKERR_SUCCESS → ∀ (ds : List Int) (cs : List ConnState),
      respKind (pair_room st room_id activation_code rr rp dpr ds cs) =
        some PairOutcomeKind.failed) ∧
    (∀ cs : List ConnState,
      respKind (pair_room st room_id activation_code rr rp ZRCSDKERR_SUCCESS [] cs) =
        some PairOutcomeKind.failed) ∧
    (∀ N : Int, N ≠ 0 → ∀ cs : List ConnState,
      respKind (pair_room st room_id activation_code rr rp ZRCSDKERR_SUCCESS [N] cs) =
        some PairOutcomeKind.failed) := by
  refine ⟨?_, ?_, ?_, ?_, ?_⟩
  · intro cs hcs
    rw [pair_room_registered st room_id activation_code rr rp ZRCSDKERR_SUCCESS [0] cs h s p
      hroom hs hp]
    constructor
    · simp [pair_room_body, ZRCSDKERR_SUCCESS, OnPairRoomResult, foldl_conn_event, hcs]
    · simp [pair_room_body, ZRCSDKERR_SUCCESS, OnPairRoomResult, foldl_conn_event, hcs,
        respKind, classifyOutcome]
  · intro cs hcs
    rw [pair_room_registered st room_id activation_code rr rp ZRCSDKERR_SUCCESS [0] cs h s p
      hroom hs hp]
    simp [pair_room_body, ZRCSDKERR_SUCCESS, OnPairRoomResult, foldl_conn_event, hcs,
      respKind, classifyOutcome]
  · intro dpr hdpr ds cs
    rw [pair_room_registered st room_id activation_code rr rp dpr ds cs h s p hroom hs hp]
    simp only [ZRCSDKERR_SUCCESS] at hdpr
    simp [pair_room_body, ZRCSDKERR_SUCCESS, hdpr, respKind, classifyOutcome]
  · intro cs
    rw [pair_room_registered st room_id activation_code rr rp ZRCSDKERR_SUCCESS [] cs h s p
      hroom hs hp]
    simp [pair_room_body, ZRCSDKERR_SUCCESS, respKind, classifyOutcome]
  · intro N hN cs
    rw [pair_room_registered st room_id activation_code rr rp ZRCSDKERR_SUCCESS [N] cs h s p
      hroom hs hp]
    simp [pair_room_body, ZRCSDKERR_SUCCESS, OnPairRoomResult, hN, respKind, classifyOutcome]

theorem c6_paired_not_connected_witness :
    (alookup stW.rooms "r1" = some 0 ∧
     alookup stW.room_sinks "r1" =
       some { room_id := "r1", pair_result := some 7, pair_event := true } ∧
     alookup stW.premeeting_sinks "r1" = some { room_id := "r1" } ∧
     ([ConnState.connecting].any (fun c => decide (c = ConnState.connected)) = false) ∧
     ([ConnState.connected].any (fun c => decide (c = ConnState.connected)) = true) ∧
     (9 : Int) ≠ ZRCSDKERR_SUCCESS ∧ (5 : Int) ≠ 0) ∧
    ((pair_room stW "r1" "code" true true ZRCSDKERR_SUCCESS [0] [ConnState.connecting]).2.2 =
       Except.ok { room_id := "r1", result := some 0, success := false,
                   message := "Pairing succeeded but timeout waiting for connection. Room may connect later." } ∧
     respKind (pair_room stW "r1" "code" true true ZRCSDKERR_SUCCESS [0] [ConnState.connecting]) =
       some PairOutcomeKind.pairedNotConnected) ∧
    respKind (pair_room stW "r1" "code" true true ZRCSDKERR_SUCCESS [0] [ConnState.connected]) =
      some PairOutcomeKind.connected ∧
    respKind (pair_room stW "r1" "code" true true 9 [] []) = some PairOutcomeKind.failed ∧
    respKind (pair_room stW "r1" "code" true true ZRCSDKERR_SUCCESS [] []) =
      some PairOutcomeKind.failed ∧
    respKind (pair_room stW "r1" "code" true true ZRCSDKERR_SUCCESS [5] []) =
      some PairOutcomeKind.failed :=
  ⟨⟨rfl, rfl, rfl, by decide, by decide, by decide, by decide⟩,
    (c6_paired_not_connected_three_way stW "r1" "code" true true 0
      { room_id := "r1", pair_result := some 7, pair_event := true } { room_id := "r1" }
      rfl rfl rfl).1 [ConnState.connecting] (by decide),
    (c6_paired_not_connected_three_way stW "r1" "code" true true 0
      { room_id := "r1", pair_result := some 7, pair_event := true } { room_id := "r1" }
      rfl rfl rfl).2.1 [ConnState.connected] (by decide),
    (c6_paired_not_connected_three_way stW "r1" "code" true true 0
      { room_id := "r1", pair_result := some 7, pair_event := true } { room_id := "r1" }
      rfl rfl rfl).2.2.1 9 (by decide) [] [],
    (c6_paired_not_connected_three_way stW "r1" "code" true true 0
      { room_id := "r1", pair_result := some 7, pair_event := true } { room_id := "r1" }
      rfl rfl rfl).2.2.2.1 [],
    (c6_paired_not_connected_three_way stW "r1" "code" true true 0
      { room_id := "r1", pair_result := some 7, pair_event := true } { room_id := "r1" }
      rfl rfl rfl).2.2.2.2 5 (by decide) []⟩

/-- Claim C10: a device id restored by startup restoration has a registry
entry but no callback sinks (restoration only populates the rooms
dictionary), so a pair request for it fails with the internal error
"Failed to register callbacks" and issues no driver call at all (in
particular the driver pairing call is never made); an id whose sinks were
registered in-process (created via getOrCreate with successful sink
registration) does get the driver pairing call issued. -/
theorem c10_restored_devices_cannot_pair :
    (∀ (infos : List RoomInfo) (room_id activation_code : String) (h : Nat) (rr rp : Bool)
        (dpr : Int) (ds : List Int) (cs : List ConnState),
      alookup ((restore_rooms ZRCSDKERR_SUCCESS infos emptyManager).1).rooms room_id = some h →
      pair_room ((restore_rooms ZRCSDKERR_SUCCESS infos emptyManager).1) room_id
          activation_code rr rp dpr ds cs =
        ((restore_rooms ZRCSDKERR_SUCCESS infos emptyManager).1, [],
          Except.error "Failed to register callbacks")) ∧
    (∀ (st : RoomManagerState) (room_id activation_code : String) (h : Nat)
        (s : RoomSink) (p : PreMeetingSink) (rr rp : Bool) (dpr : Int)
        (ds : List Int) (cs : List ConnState),
      alookup st.rooms room_id = some h →
      alookup st.room_sinks room_id = some s →
      alookup st.premeeting_sinks room_id = some p →
      DriverCall.pairWithCode room_id activation_code ∈
        (pair_room st room_id activation_code rr rp dpr ds cs).2.1) := by
  constructor
  · intro infos room_id activation_code h rr rp dpr ds cs hroom
    have hsinks : ((restore_rooms ZRCSDKERR_SUCCESS infos emptyManager).1).room_sinks = [] := by
      simp [restore_rooms, emptyManager]
    exact pair_room_no_sink _ room_id activation_code rr rp dpr ds cs h hroom
      (by rw [hsinks]; rfl)
  · intro st room_id activation_code h s p rr rp dpr ds cs hroom hs hp
    rw [pair_room_registered st room_id activation_code rr rp dpr ds cs h s p hroom hs hp]
    simp only [pair_room_body]
    split
    · simp
    · split
      · simp
      · split
        · simp
        · split <;> simp

theorem c10_restored_devices_witness :
    (alookup ((restore_rooms ZRCSDKERR_SUCCESS
        [{ roomID := "r1", roomName := "Room One", worker := some 3 }] emptyManager).1).rooms
        "r1" = some 3 ∧
     pair_room ((restore_rooms ZRCSDKERR_SUCCESS
        [{ roomID := "r1", roomName := "Room One", worker := some 3 }] emptyManager).1)
        "r1" "code" true true ZRCSDKERR_SUCCESS [] [] =
      ((restore_rooms ZRCSDKERR_SUCCESS
        [{ roomID := "r1", roomName := "Room One", worker := some 3 }] emptyManager).1, [],
        Except.error "Failed to register callbacks")) ∧
    (alookup stW.rooms "r1" = some 0 ∧
     DriverCall.pairWithCode "r1" "code" ∈
       (pair_room stW "r1" "code" true true ZRCSDKERR_SUCCESS [] []).2.1) :=
  ⟨⟨rfl,
    c10_restored_devices_cannot_pair.1
      [{ roomID := "r1", roomName := "Room One", worker := some 3 }] "r1" "code" 3 true true
      ZRCSDKERR_SUCCESS [] [] rfl⟩,
   ⟨rfl,
    c10_restored_devices_cannot_pair.2 stW "r1" "code" 0
      { room_id := "r1", pair_result := some 7, pair_event := true } { room_id := "r1" }
      true true ZRCSDKERR_SUCCESS [] [] rfl rfl rfl⟩⟩
